import Mathlib

/-!
Shallow embedding of the ERDDAP catalog-search and per-dataset fetch loop of
`05_ERDDAP_access.ipynb`, and of the bathymetry masking step of
`06_Bathy_Explorer.ipynb`.

The notebook delegates HTTP, CSV parsing and array handling to external
libraries; those collaborators appear here as explicit function parameters
(`service`, `getVar`, `fetch`).  Python exceptions are modelled with
`Except PyErr`; an uncaught exception is an `Except.error` propagated to the
caller, while the bare `except: pass` of the fetch loop corresponds to the
`Option.none` branch of the `fetch` collaborator being silently dropped.
Timestamps are modelled as integers, missing array values as `Option`.
-/

/-- Errors raised by the Python code: `indexError` for `list[0]` on an empty
list (the `get_var_by_attr(...)[0]` site), `retrievalError` for a failed or
malformed remote request (`urlopen` / `read_csv`). -/
inductive PyErr where
  | indexError
  | retrievalError
  deriving DecidableEq, Repr

/-- The erddapy `ERDDAP` client object (`ooi` / `ioos` in the notebook):
`server`, `protocol` are set at construction; `constraints` and `response`
are set once before the loop; `dataset_id` and `variables` are mutated in
place on every loop iteration. -/
structure ERDDAPClient where
  server : String
  protocol : String
  constraints : List (String × String)
  response : String
  dataset_id : String
  vars : List String
  deriving DecidableEq, Repr

/-- A fetched time series: (timestamp, value) pairs, as produced by
`to_xarray` for the `time` plus resolved-variable request. -/
abbrev Series : Type := List (Int × Int)

/-- One successfully fetched dataset: its identifier together with the
series appended to `df_list` for it. -/
structure SeriesResult where
  dataset_id : String
  series : Series
  deriving DecidableEq, Repr

/-- `ooi.get_var_by_attr(dataset_id=..., standard_name=...)[0]`: take index 0
of the match list returned by the per-dataset metadata collaborator
`getVar`; indexing an empty Python list raises `IndexError`. -/
def resolveVariable (getVar : String → String → List String)
    (dataset_id standard_name : String) : Except PyErr String :=
  match getVar dataset_id standard_name with
  | [] => .error .indexError
  | v :: _ => .ok v

/-- A network request issued by the loop body: the info request underlying
`get_var_by_attr`, or the data download underlying `to_xarray` (whose URL is
built from the whole client state). -/
inductive Request where
  | infoRequest (dataset_id : String) (standard_name : String)
  | downloadRequest (client : ERDDAPClient)
  deriving DecidableEq, Repr

/-- The per-dataset fetch loop (`for dataset_id in ctdbp['Dataset ID'].values`),
instrumented with the list of network requests it issues.  Each iteration:
mutate `ooi.dataset_id`; resolve the variable via `get_var_by_attr(...)[0]`
(outside the `try`: its `IndexError` on an empty match list propagates and
aborts the loop); mutate `ooi.variables`; then inside `try`, attempt the
download (`fetch`), appending to `df_list` on success and silently skipping
on any failure (`except: pass`).  Returns the request trace together with
either the uncaught error or the final client state and accumulated
results. -/
def fetchLoopTrace (getVar : String → String → List String)
    (fetch : ERDDAPClient → Option Series) (standard_name : String) :
    ERDDAPClient → List String →
      List Request × Except PyErr (ERDDAPClient × List SeriesResult)
  | ooi, [] => ([], .ok (ooi, []))
  | ooi, dataset_id :: rest =>
    match resolveVariable getVar dataset_id standard_name with
    | .error e => ([.infoRequest dataset_id standard_name], .error e)
    | .ok v =>
      let c := { ooi with dataset_id := dataset_id, vars := ["time", v] }
      let r := fetchLoopTrace getVar fetch standard_name c rest
      match fetch c with
      | some s =>
        (.infoRequest dataset_id standard_name :: .downloadRequest c :: r.1,
          r.2.map (fun p => (p.1, ⟨dataset_id, s⟩ :: p.2)))
      | none =>
        (.infoRequest dataset_id standard_name :: .downloadRequest c :: r.1, r.2)

/-- `fetchAll`: the observable outcome of the fetch loop (final client state
and collected `df_list`), with the request trace projected away. -/
def fetchLoop (getVar : String → String → List String)
    (fetch : ERDDAPClient → Option Series) (standard_name : String)
    (ooi : ERDDAPClient) (ids : List String) :
    Except PyErr (ERDDAPClient × List SeriesResult) :=
  (fetchLoopTrace getVar fetch standard_name ooi ids).2

/-- The client state after the iteration for `dataset_id`: only the two
fields assigned in the loop body differ from the incoming state. -/
def iterClient (getVar : String → String → List String) (standard_name : String)
    (c : ERDDAPClient) (dataset_id : String) : ERDDAPClient :=
  { c with dataset_id := dataset_id,
           vars := ["time", (getVar dataset_id standard_name).headD ""] }

theorem iterClient_iterClient (getVar : String → String → List String)
    (sn : String) (c : ERDDAPClient) (a b : String) :
    iterClient getVar sn (iterClient getVar sn c a) b = iterClient getVar sn c b := rfl

/-- When every dataset has at least one matching variable, the loop runs to
completion: its trace is two requests per descriptor in input order, its
final client is the fold of the per-iteration mutation, and its output is
the in-order `filterMap` of the per-descriptor fetch outcomes. -/
theorem fetchLoopTrace_spec (getVar : String → String → List String)
    (fetch : ERDDAPClient → Option Series) (sn : String) :
    ∀ (ids : List String) (ooi : ERDDAPClient),
      (∀ i ∈ ids, getVar i sn ≠ []) →
      fetchLoopTrace getVar fetch sn ooi ids =
        (ids.flatMap (fun i =>
            [.infoRequest i sn, .downloadRequest (iterClient getVar sn ooi i)]),
         .ok (ids.foldl (iterClient getVar sn) ooi,
              ids.filterMap (fun i =>
                (fetch (iterClient getVar sn ooi i)).map
                  (fun s => ⟨i, s⟩)))) := by
  intro ids
  induction ids with
  | nil => intro ooi _; rfl
  | cons i rest ih =>
    intro ooi h
    have hi : getVar i sn ≠ [] := h i (List.mem_cons_self i rest)
    have hrest : ∀ j ∈ rest, getVar j sn ≠ [] :=
      fun j hj => h j (List.mem_cons_of_mem i hj)
    cases hv : getVar i sn with
    | nil => exact absurd hv hi
    | cons v vs =>
      have hc : ({ ooi with dataset_id := i, vars := ["time", v] } : ERDDAPClient)
          = iterClient getVar sn ooi i := by
        simp [iterClient, hv]
      have hiter : ∀ j, iterClient getVar sn (iterClient getVar sn ooi i) j
          = iterClient getVar sn ooi j := fun j => rfl
      rw [fetchLoopTrace]
      rw [show resolveVariable getVar i sn = .ok v by simp [resolveVariable, hv]]
      simp only [hc, ih (iterClient getVar sn ooi i) hrest]
      cases hf : fetch (iterClient getVar sn ooi i) with
      | some s =>
        simp only [List.flatMap_cons, List.foldl_cons, List.filterMap_cons, hf,
          Option.map_some, Except.map, hiter]
        rfl
      | none =>
        simp only [List.flatMap_cons, List.foldl_cons, List.filterMap_cons, hf,
          Option.map_none, hiter]
        rfl

/-- The constraint dictionary `kw` assembled in the notebook: bounding box,
time window (timestamps as integers), variable standard name and coarse
dataset category. -/
structure SearchConstraints where
  standard_name : String
  min_lon : Int
  max_lon : Int
  min_lat : Int
  max_lat : Int
  min_time : Int
  max_time : Int
  cdm_data_type : String
  deriving DecidableEq, Repr

/-- One row of the ERDDAP advanced-search CSV response (the notebook reads
the full table before selecting three columns). -/
structure SearchRow where
  griddap : String
  subset : String
  tabledap : String
  title : String
  summary : String
  institution : String
  datasetID : String
  deriving DecidableEq, Repr

/-- The three columns kept by
`search_df[['Institution', 'Dataset ID', 'tabledap']]`. -/
structure DatasetDescriptor where
  institution : String
  datasetID : String
  tabledap : String
  deriving DecidableEq, Repr

/-- Column selection applied to one search row. -/
def toDescriptor (r : SearchRow) : DatasetDescriptor :=
  { institution := r.institution, datasetID := r.datasetID, tabledap := r.tabledap }

/-- `search`: `get_search_url` + `pd.read_csv(urlopen(...))` + column
selection.  The remote catalog service is the collaborator `service`; a
failed or malformed request is its `Except.error`, which propagates (there
is no `try` around the search), and an `Except.ok` table is mapped row by
row through the column selection, preserving row order. -/
def search (service : SearchConstraints → Except PyErr (List SearchRow))
    (kw : SearchConstraints) : Except PyErr (List DatasetDescriptor) :=
  (service kw).map (fun rows => rows.map toDescriptor)

/-- `search_df['Dataset ID'].str.contains("ctdbp")`: substring containment
(the pattern has no regex metacharacters). -/
def strContainsSub (s pat : String) : Bool :=
  s.toList.tails.any (fun t => pat.toList.isPrefixOf t)

/-- The OOI section-3 flow: search the catalog, keep the rows whose dataset
identifier contains `"ctdbp"`, and run the fetch loop over their
identifiers. -/
def runPipeline (service : SearchConstraints → Except PyErr (List SearchRow))
    (kw : SearchConstraints) (getVar : String → String → List String)
    (fetch : ERDDAPClient → Option Series) (ooi : ERDDAPClient) :
    Except PyErr (ERDDAPClient × List SeriesResult) :=
  match search service kw with
  | .error e => .error e
  | .ok search_df =>
    fetchLoop getVar fetch kw.standard_name ooi
      ((search_df.filter (fun d => strContainsSub d.datasetID "ctdbp")).map
        (fun d => d.datasetID))

/-- The allDatasets query built by `alllonlat`'s fixed URL template:
`cdm_data_type="{tag}"&minTime<={...}&maxTime>={...}`.  The `format` call
places `max_time` in the `minTime<=` slot and `min_time` in the
`maxTime>=` slot. -/
structure AllDatasetsQuery where
  server : String
  cdm_data_type : String
  minTimeUB : Int
  maxTimeLB : Int
  deriving DecidableEq, Repr

/-- One data row of `allDatasets.csv?datasetID,minLongitude,minLatitude`
(the units row is dropped by `skiprows=[1]`, i.e. by the CSV collaborator). -/
structure AllRow where
  datasetID : String
  minLongitude : Rat
  minLatitude : Rat
  deriving DecidableEq, Repr

/-- `alllonlat(e, cdm_data_type, min_time, max_time)`: build the one
fixed-template request from `e.server` and the arguments, issue it, and
return the parsed table; any failure of the collaborator propagates. -/
def alllonlat (service : AllDatasetsQuery → Except PyErr (List AllRow))
    (e : ERDDAPClient) (cdm_data_type : String) (min_time max_time : Int) :
    Except PyErr (List AllRow) :=
  service { server := e.server, cdm_data_type := cdm_data_type,
            minTimeUB := max_time, maxTimeLB := min_time }

/-- A dataset as known to the remote catalog: category, time extent and
spatial anchor point. -/
structure CatalogEntry where
  datasetID : String
  cdm_data_type : String
  minTime : Int
  maxTime : Int
  minLongitude : Rat
  minLatitude : Rat
  deriving DecidableEq, Repr

/-- The `(datasetID, minLongitude, minLatitude)` columns requested by the
`alllonlat` template. -/
def tripleOf (c : CatalogEntry) : AllRow :=
  { datasetID := c.datasetID, minLongitude := c.minLongitude,
    minLatitude := c.minLatitude }

/-- Model of the external allDatasets summary endpoint (an external
collaborator): one row per catalog entry whose category equals the query's
tag and whose time extent satisfies the query's two inequalities. -/
def honestAllDatasets (catalog : List CatalogEntry)
    (q : AllDatasetsQuery) : Except PyErr (List AllRow) :=
  .ok ((catalog.filter (fun c => c.cdm_data_type == q.cdm_data_type
      && decide (c.minTime ≤ q.minTimeUB)
      && decide (q.maxTimeLB ≤ c.maxTime))).map tripleOf)

/-- One cell of the bathymetry array `na`: its coordinates and its `topo`
value, `none` standing for NaN / missing. -/
structure BathyCell where
  lat : Rat
  lon : Rat
  topo : Option Int
  deriving DecidableEq, Repr

/-- `xarray.DataArray.where(cond)`: keep a cell's value where the condition
holds, replace it with missing elsewhere; a missing value stays missing
(every comparison against NaN is false).  Coordinates and shape are
untouched. -/
def xrWhere (a : List BathyCell) (p : Int → Bool) : List BathyCell :=
  a.map (fun c =>
    { c with topo := match c.topo with
        | some v => if p v then some v else none
        | none => none })

/-- The two masking steps of `06_Bathy_Explorer.ipynb`:
`na = na.where(na<0)` followed by `na = na.where(na>-1000)`. -/
def maskNorthAmerica (na : List BathyCell) : List BathyCell :=
  xrWhere (xrWhere na (fun v => decide (v < 0))) (fun v => decide (-1000 < v))

theorem fetchLoop_spec (getVar : String → String → List String)
    (fetch : ERDDAPClient → Option Series) (sn : String)
    (ids : List String) (ooi : ERDDAPClient)
    (h : ∀ i ∈ ids, getVar i sn ≠ []) :
    fetchLoop getVar fetch sn ooi ids =
      .ok (ids.foldl (iterClient getVar sn) ooi,
           ids.filterMap (fun i =>
             (fetch (iterClient getVar sn ooi i)).map (fun s => ⟨i, s⟩))) := by
  unfold fetchLoop
  rw [fetchLoopTrace_spec getVar fetch sn ids ooi h]

theorem filterMap_mk_map_dataset_id (F : String → Option Series) :
    ∀ ids : List String,
      (ids.filterMap (fun i => (F i).map
          (fun s => SeriesResult.mk i s))).map (fun r => r.dataset_id)
        = ids.filter (fun i => (F i).isSome) := by
  intro ids
  induction ids with
  | nil => rfl
  | cons i rest ih =>
    cases hf : F i <;>
      simp [List.filterMap_cons, hf, List.filter_cons, ih]

theorem mem_filterMap_mk (F : String → Option Series) (ids : List String)
    (r : SeriesResult)
    (hr : r ∈ ids.filterMap (fun i => (F i).map (fun s => SeriesResult.mk i s))) :
    r.dataset_id ∈ ids ∧ F r.dataset_id = some r.series := by
  rcases List.mem_filterMap.mp hr with ⟨i, hi, hfi⟩
  cases hf : F i with
  | none => rw [hf] at hfi; simp at hfi
  | some s =>
    rw [hf] at hfi
    simp only [Option.map_some', Option.some.injEq] at hfi
    subst hfi
    exact ⟨hi, hf⟩

theorem fetchLoop_ok_subset (getVar : String → String → List String)
    (fetch : ERDDAPClient → Option Series) (sn : String) :
    ∀ (ids : List String) (ooi c : ERDDAPClient) (res : List SeriesResult),
      fetchLoop getVar fetch sn ooi ids = .ok (c, res) →
      ∀ r ∈ res, r.dataset_id ∈ ids := by
  intro ids
  induction ids with
  | nil =>
    intro ooi c res h r hr
    simp only [fetchLoop, fetchLoopTrace, Except.ok.injEq, Prod.mk.injEq] at h
    rw [← h.2] at hr
    simp at hr
  | cons i rest ih =>
    intro ooi c res h r hr
    unfold fetchLoop at h
    rw [fetchLoopTrace] at h
    cases hv : getVar i sn with
    | nil => simp [resolveVariable, hv] at h
    | cons v vs =>
      simp only [resolveVariable, hv] at h
      cases hf : fetch { ooi with dataset_id := i, vars := ["time", v] } with
      | some s =>
        rw [hf] at h
        simp only at h
        cases hrec : (fetchLoopTrace getVar fetch sn
            { ooi with dataset_id := i, vars := ["time", v] } rest).2 with
        | error e => rw [hrec] at h; simp [Except.map] at h
        | ok p =>
          rw [hrec] at h
          simp only [Except.map, Except.ok.injEq, Prod.mk.injEq] at h
          rw [← h.2] at hr
          rcases List.mem_cons.mp hr with h1 | h1
          · subst h1; exact List.mem_cons_self i rest
          · exact List.mem_cons_of_mem i
              (ih { ooi with dataset_id := i, vars := ["time", v] } p.1 p.2
                (by rw [fetchLoop, hrec]) r h1)
      | none =>
        rw [hf] at h
        simp only at h
        exact List.mem_cons_of_mem i
          (ih { ooi with dataset_id := i, vars := ["time", v] } c res h r hr)

theorem foldl_iterClient_getLast (g : String → String → List String) (sn : String) :
    ∀ (ids : List String) (c : ERDDAPClient) (l : String),
      ids.getLast? = some l →
      ids.foldl (iterClient g sn) c = iterClient g sn c l := by
  intro ids
  induction ids with
  | nil => intro c l h; simp at h
  | cons a rest ih =>
    intro c l h
    cases rest with
    | nil =>
      simp only [List.getLast?_singleton, Option.some.injEq] at h
      subst h
      rfl
    | cons b r2 =>
      rw [List.getLast?_cons_cons] at h
      rw [List.foldl_cons, ih (iterClient g sn c a) l h, iterClient_iterClient]

theorem foldl_iterClient_frame (g : String → String → List String) (sn : String) :
    ∀ (ids : List String) (c : ERDDAPClient),
      (ids.foldl (iterClient g sn) c).server = c.server ∧
      (ids.foldl (iterClient g sn) c).protocol = c.protocol ∧
      (ids.foldl (iterClient g sn) c).constraints = c.constraints ∧
      (ids.foldl (iterClient g sn) c).response = c.response := by
  intro ids
  induction ids with
  | nil => exact fun c => ⟨rfl, rfl, rfl, rfl⟩
  | cons a rest ih =>
    intro c
    rw [List.foldl_cons]
    exact ih (iterClient g sn c a)

/-- The client as configured before the loop (`ERDDAP(server=..., protocol=...)`,
then `constraints` and `response='csv'` set once in section 2). -/
def initClient : ERDDAPClient :=
  { server := "http://erddap.dataexplorer.oceanobservatories.org/erddap",
    protocol := "tabledap",
    constraints := [("time>=", "2018-07-01T00:00:00Z"),
                    ("time<=", "2018-07-15T00:00:00Z")],
    response := "csv",
    dataset_id := "",
    vars := [] }

/-- C1: over N descriptors whose variable resolution succeeds, with M of the
per-descriptor fetches succeeding, `fetchAll` returns exactly M results in
the relative input order of the succeeding subset, with no placeholder for
omitted entries, and each result carries the series its fetch produced. -/
theorem C1_fetchAll_keeps_successes_in_order
    (getVar : String → String → List String) (fetch : ERDDAPClient → Option Series)
    (sn : String) (ooi : ERDDAPClient) (ids : List String)
    (h : ∀ i ∈ ids, getVar i sn ≠ []) :
    ∃ c results, fetchLoop getVar fetch sn ooi ids = .ok (c, results) ∧
      results.map (fun r => r.dataset_id)
        = ids.filter (fun i => (fetch (iterClient getVar sn ooi i)).isSome) ∧
      results.length
        = (ids.filter (fun i => (fetch (iterClient getVar sn ooi i)).isSome)).length ∧
      ∀ r ∈ results, fetch (iterClient getVar sn ooi r.dataset_id) = some r.series := by
  refine ⟨_, _, fetchLoop_spec getVar fetch sn ids ooi h, ?_, ?_, ?_⟩
  · exact filterMap_mk_map_dataset_id (fun i => fetch (iterClient getVar sn ooi i)) ids
  · rw [← filterMap_mk_map_dataset_id (fun i => fetch (iterClient getVar sn ooi i)) ids,
      List.length_map]
  · intro r hr
    exact (mem_filterMap_mk (fun i => fetch (iterClient getVar sn ooi i)) ids r hr).2

/-- A metadata collaborator for which every dataset declares exactly the
requested variable. -/
def witnessGetVar : String → String → List String :=
  fun _ _ => ["sea_water_practical_salinity"]

/-- A fetch collaborator that throws for dataset `B` and succeeds
elsewhere. -/
def witnessFetch : ERDDAPClient → Option Series :=
  fun c => if c.dataset_id == "B" then none else some [(0, 35)]

/-- C1 witness: the concrete scenario of the claim — descriptors A, B, C
with B's fetch throwing — yields results for A and C in that order. -/
theorem C1_witness :
    (∀ i ∈ ["A", "B", "C"], witnessGetVar i "sea_water_practical_salinity" ≠ []) ∧
    (∃ c results,
      fetchLoop witnessGetVar witnessFetch "sea_water_practical_salinity"
          initClient ["A", "B", "C"] = .ok (c, results) ∧
      results.map (fun r => r.dataset_id)
        = ["A", "B", "C"].filter (fun i =>
            (witnessFetch (iterClient witnessGetVar
              "sea_water_practical_salinity" initClient i)).isSome) ∧
      results.length
        = (["A", "B", "C"].filter (fun i =>
            (witnessFetch (iterClient witnessGetVar
              "sea_water_practical_salinity" initClient i)).isSome)).length ∧
      ∀ r ∈ results,
        witnessFetch (iterClient witnessGetVar "sea_water_practical_salinity"
          initClient r.dataset_id) = some r.series) ∧
    ["A", "B", "C"].filter (fun i =>
        (witnessFetch (iterClient witnessGetVar
          "sea_water_practical_salinity" initClient i)).isSome) = ["A", "C"] :=
  ⟨by decide,
   C1_fetchAll_keeps_successes_in_order witnessGetVar witnessFetch
     "sea_water_practical_salinity" initClient ["A", "B", "C"] (by decide),
   by decide⟩

/-- A metadata collaborator for which dataset `B` has no variable carrying
the requested standard name. -/
def emptyMatchGetVar : String → String → List String :=
  fun i _ => if i == "B" then [] else ["sea_water_practical_salinity"]

/-- C2 counterexample: when dataset B's semantic-tag match list is empty,
`get_var_by_attr(...)[0]` raises IndexError outside the `try`, so the whole
loop aborts with an uncaught error instead of skipping B silently — an
exception does propagate past `fetchAll`, refuting the claim. -/
theorem C2_counterexample :
    fetchLoop emptyMatchGetVar (fun _ => some [(0, 35)])
      "sea_water_practical_salinity" initClient ["A", "B", "C"]
      = .error .indexError := by
  rfl

/-- C2 (amended): failures of the data-retrieval step itself (network
failure or malformed response inside the `try`) are skipped silently — the
loop still returns normally and the failing dataset is merely omitted, with
no record of the failure; but a descriptor whose semantic-tag match list is
empty raises an uncaught IndexError that aborts the loop. -/
theorem C2_amended_fetch_failures_skipped
    (getVar : String → String → List String) (fetch : ERDDAPClient → Option Series)
    (sn : String) (ooi : ERDDAPClient) (ids : List String)
    (h : ∀ i ∈ ids, getVar i sn ≠ []) :
    ∃ c results, fetchLoop getVar fetch sn ooi ids = .ok (c, results) ∧
      ∀ i ∈ ids, fetch (iterClient getVar sn ooi i) = none →
        i ∉ results.map (fun r => r.dataset_id) := by
  refine ⟨_, _, fetchLoop_spec getVar fetch sn ids ooi h, ?_⟩
  intro i hi hnone hmem
  rw [filterMap_mk_map_dataset_id (fun j => fetch (iterClient getVar sn ooi j)) ids]
    at hmem
  have hsome := (List.mem_filter.mp hmem).2
  rw [hnone] at hsome
  simp at hsome

/-- C2 witness: with every match list nonempty and B's fetch failing, the
loop returns normally and B is absent from the output. -/
theorem C2_witness :
    (∀ i ∈ ["A", "B", "C"], witnessGetVar i "sea_water_practical_salinity" ≠ []) ∧
    (∃ c results,
      fetchLoop witnessGetVar witnessFetch "sea_water_practical_salinity"
          initClient ["A", "B", "C"] = .ok (c, results) ∧
      ∀ i ∈ ["A", "B", "C"],
        witnessFetch (iterClient witnessGetVar "sea_water_practical_salinity"
          initClient i) = none →
        i ∉ results.map (fun r => r.dataset_id)) :=
  ⟨by decide,
   C2_amended_fetch_failures_skipped witnessGetVar witnessFetch
     "sea_water_practical_salinity" initClient ["A", "B", "C"] (by decide)⟩

/-- A metadata collaborator with no variable carrying the tag on any
dataset. -/
def noMatchGetVar : String → String → List String := fun _ _ => []

/-- C4 counterexample: for a dataset with zero variables carrying the tag,
`get_var_by_attr(...)[0]` raises IndexError — resolution produces an error,
not a variable name, refuting "maps the requested semantic tag to exactly
one variable name ... even when zero ... variables carry the tag". -/
theorem C4_counterexample :
    resolveVariable noMatchGetVar "ooi-ce01issm-sbd17-06-ctdbpc000"
      "sea_water_practical_salinity" = .error .indexError := rfl

/-- C4 (amended): whenever at least one variable of the dataset carries the
tag, resolution deterministically returns the first match in the dataset's
declared variable order — also when several variables carry the tag; when
none does, the index-0 selection raises an uncaught IndexError and no
variable name is produced.  The mapping is per-dataset: it only consults the
match list of the dataset at hand. -/
theorem C4_amended_first_match (getVar : String → String → List String)
    (d sn : String) :
    (∀ v vs, getVar d sn = v :: vs → resolveVariable getVar d sn = .ok v) ∧
    (getVar d sn = [] → resolveVariable getVar d sn = .error .indexError) := by
  constructor
  · intro v vs h
    simp [resolveVariable, h]
  · intro h
    simp [resolveVariable, h]

/-- A metadata collaborator declaring two variables with the requested tag. -/
def twoMatchGetVar : String → String → List String :=
  fun _ _ => ["sea_water_practical_salinity", "sea_water_practical_salinity_qc"]

/-- C4 witness: with two matching variables, resolution returns the first. -/
theorem C4_witness :
    resolveVariable twoMatchGetVar "ooi-ce02shsm-rid27-03-ctdbpc000"
      "sea_water_practical_salinity" = .ok "sea_water_practical_salinity" :=
  (C4_amended_first_match twoMatchGetVar "ooi-ce02shsm-rid27-03-ctdbpc000"
    "sea_water_practical_salinity").1 "sea_water_practical_salinity"
    ["sea_water_practical_salinity_qc"] rfl

/-- C3: if the catalog search request fails, the error propagates to the
caller (there is no retry and no partial result), the enclosing operation
aborts with that error, and the fetch loop is never invoked: the outcome is
the search error whatever the metadata and fetch collaborators would have
answered. -/
theorem C3_search_failure_aborts_pipeline
    (service : SearchConstraints → Except PyErr (List SearchRow))
    (kw : SearchConstraints) (e : PyErr) (hfail : service kw = .error e) :
    ∀ (getVar : String → String → List String)
      (fetch : ERDDAPClient → Option Series) (ooi : ERDDAPClient),
      runPipeline service kw getVar fetch ooi = .error e := by
  intro getVar fetch ooi
  simp [runPipeline, search, hfail, Except.map]

/-- A catalog service whose request always fails (unreachable endpoint). -/
def failingService : SearchConstraints → Except PyErr (List SearchRow) :=
  fun _ => .error .retrievalError

/-- The concrete constraint set assembled in the notebook (timestamps as
Unix epochs of 2018-07-01T00:00:00Z and 2018-07-15T00:00:00Z). -/
def theKw : SearchConstraints :=
  { standard_name := "sea_water_practical_salinity",
    min_lon := -127, max_lon := -122, min_lat := 44, max_lat := 48,
    min_time := 1530403200, max_time := 1531612800,
    cdm_data_type := "timeseries" }

/-- C3 witness: against an unreachable endpoint the pipeline aborts with the
retrieval error. -/
theorem C3_witness :
    runPipeline failingService theKw witnessGetVar witnessFetch initClient
      = .error .retrievalError :=
  C3_search_failure_aborts_pipeline failingService theKw .retrievalError rfl
    witnessGetVar witnessFetch initClient

/-- C5: every result of the fetch loop carries a dataset identifier drawn
from the descriptor table produced by the preceding search: the loop
iterates only over the `"ctdbp"`-filtered subset of the search rows, so no
result can name a dataset outside the search result. -/
theorem C5_results_within_search
    (service : SearchConstraints → Except PyErr (List SearchRow))
    (kw : SearchConstraints) (getVar : String → String → List String)
    (fetch : ERDDAPClient → Option Series) (ooi c : ERDDAPClient)
    (results : List SeriesResult)
    (h : runPipeline service kw getVar fetch ooi = .ok (c, results)) :
    ∃ df, search service kw = .ok df ∧
      ∀ r ∈ results, r.dataset_id ∈ df.map (fun d => d.datasetID) := by
  unfold runPipeline at h
  cases hs : search service kw with
  | error e =>
    rw [hs] at h
    exact Except.noConfusion h
  | ok df =>
    rw [hs] at h
    refine ⟨df, rfl, ?_⟩
    intro r hr
    have hmem := fetchLoop_ok_subset getVar fetch kw.standard_name
      ((df.filter (fun d => strContainsSub d.datasetID "ctdbp")).map
        (fun d => d.datasetID)) ooi c results h r hr
    rcases List.mem_map.mp hmem with ⟨d, hd, hdi⟩
    exact List.mem_map.mpr ⟨d, List.mem_of_mem_filter hd, hdi⟩

/-- A search row whose dataset identifier contains `"ctdbp"`. -/
def searchRowCtdbp : SearchRow :=
  { griddap := "", subset := "",
    tabledap := "http://erddap.dataexplorer.oceanobservatories.org/erddap/tabledap/ooi-ce01issm-sbd17-06-ctdbpc000",
    title := "CTDBP Endurance OR Inshore Surface Mooring",
    summary := "Sea water practical salinity time series",
    institution := "Ocean Observatories Initiative",
    datasetID := "ooi-ce01issm-sbd17-06-ctdbpc000" }

/-- A search row whose dataset identifier does not contain `"ctdbp"`. -/
def searchRowOther : SearchRow :=
  { griddap := "", subset := "",
    tabledap := "http://erddap.dataexplorer.oceanobservatories.org/erddap/tabledap/ooi-ce04osps-sf01b-2a-ctdpfa107",
    title := "CTDPF Endurance OR Offshore Profiler",
    summary := "Sea water practical salinity time series",
    institution := "Ocean Observatories Initiative",
    datasetID := "ooi-ce04osps-sf01b-2a-ctdpfa107" }

/-- A catalog service returning a fixed two-row table. -/
def okService : SearchConstraints → Except PyErr (List SearchRow) :=
  fun _ => .ok [searchRowCtdbp, searchRowOther]

/-- The client state left behind by the C5 witness run. -/
def clientAfterC5Run : ERDDAPClient :=
  { initClient with dataset_id := "ooi-ce01issm-sbd17-06-ctdbpc000",
                    vars := ["time", "sea_water_practical_salinity"] }

/-- C5 witness: a concrete successful pipeline run whose single result names
a dataset of the search table. -/
theorem C5_witness :
    runPipeline okService theKw witnessGetVar witnessFetch initClient
      = .ok (clientAfterC5Run,
             [⟨"ooi-ce01issm-sbd17-06-ctdbpc000", [(0, 35)]⟩]) ∧
    (∃ df, search okService theKw = .ok df ∧
      ∀ r ∈ ([⟨"ooi-ce01issm-sbd17-06-ctdbpc000", [(0, 35)]⟩] : List SeriesResult),
        r.dataset_id ∈ df.map (fun d => d.datasetID)) :=
  ⟨rfl,
   C5_results_within_search okService theKw witnessGetVar witnessFetch
     initClient _ _ rfl⟩

/-- C6: with the remote catalog unchanged, two invocations of `search` with
identical constraints yield identical results; the rows of the response are
passed through one by one (column selection only), so the result preserves
the service's row order, length and multiplicity, with no caching, sorting
or other state-dependent transformation. -/
theorem C6_search_idempotent_pass_through
    (service : SearchConstraints → Except PyErr (List SearchRow))
    (kw : SearchConstraints) (rows : List SearchRow)
    (h : service kw = .ok rows) :
    search service kw = search service kw ∧
    search service kw = .ok (rows.map toDescriptor) ∧
    (rows.map toDescriptor).map (fun d => d.datasetID)
      = rows.map (fun r => r.datasetID) ∧
    (rows.map toDescriptor).length = rows.length := by
  refine ⟨rfl, by simp [search, h, Except.map], ?_, by simp⟩
  rw [List.map_map]
  rfl

/-- C6 witness: the fixed two-row catalog is passed through in order. -/
theorem C6_witness :
    search okService theKw = search okService theKw ∧
    search okService theKw
      = .ok ([searchRowCtdbp, searchRowOther].map toDescriptor) ∧
    ([searchRowCtdbp, searchRowOther].map toDescriptor).map
        (fun d => d.datasetID)
      = [searchRowCtdbp, searchRowOther].map (fun r => r.datasetID) ∧
    ([searchRowCtdbp, searchRowOther].map toDescriptor).length
      = [searchRowCtdbp, searchRowOther].length :=
  C6_search_idempotent_pass_through okService theKw
    [searchRowCtdbp, searchRowOther] rfl

/-- C7: `alllonlat` issues one request built from its fixed URL template —
`cdm_data_type="tag"`, `minTime<=max_time`, `maxTime>=min_time` — and, when
the allDatasets endpoint answers honestly, returns one
(identifier, minLongitude, minLatitude) row per dataset that carries the
category tag and whose time extent overlaps the window; like `search`, it
propagates a retrieval failure to the caller unchanged. -/
theorem C7_alllonlat_contract (catalog : List CatalogEntry) (e : ERDDAPClient)
    (tag : String) (tmin tmax : Int) (err : PyErr) :
    alllonlat (honestAllDatasets catalog) e tag tmin tmax
      = .ok ((catalog.filter (fun c => c.cdm_data_type == tag
          && decide (c.minTime ≤ tmax) && decide (tmin ≤ c.maxTime))).map tripleOf) ∧
    (∀ r, r ∈ (catalog.filter (fun c => c.cdm_data_type == tag
          && decide (c.minTime ≤ tmax) && decide (tmin ≤ c.maxTime))).map tripleOf ↔
        ∃ c, c ∈ catalog ∧ c.cdm_data_type = tag ∧ c.minTime ≤ tmax ∧
          tmin ≤ c.maxTime ∧ r = tripleOf c) ∧
    alllonlat (fun _ => .error err) e tag tmin tmax = .error err := by
  refine ⟨rfl, ?_, rfl⟩
  intro r
  constructor
  · intro hr
    rcases List.mem_map.mp hr with ⟨c, hc, hrc⟩
    rcases List.mem_filter.mp hc with ⟨hcc, hp⟩
    simp only [Bool.and_eq_true, beq_iff_eq, decide_eq_true_eq] at hp
    exact ⟨c, hcc, hp.1.1, hp.1.2, hp.2, hrc.symm⟩
  · rintro ⟨c, hc, h1, h2, h3, h4⟩
    exact List.mem_map.mpr
      ⟨c, List.mem_filter.mpr ⟨hc, by simp [h1, h2, h3]⟩, h4.symm⟩

/-- A matching catalog entry: category `TimeSeries`, extent overlapping the
notebook's window. -/
def catTimeSeries : CatalogEntry :=
  { datasetID := "ooi-ce01issm-sbd17-06-ctdbpc000", cdm_data_type := "TimeSeries",
    minTime := 1400000000, maxTime := 1600000000,
    minLongitude := -124, minLatitude := 44 }

/-- A non-matching catalog entry: its extent ends before the window
starts. -/
def catStale : CatalogEntry :=
  { datasetID := "ooi-gi01sumo-rid16-03-ctdbpf000", cdm_data_type := "TimeSeries",
    minTime := 1300000000, maxTime := 1400000000,
    minLongitude := -39, minLatitude := 59 }

/-- C7 witness: on a concrete two-entry catalog only the overlapping entry
is returned, and a failing endpoint propagates its error. -/
theorem C7_witness :
    alllonlat (honestAllDatasets [catTimeSeries, catStale]) initClient
        "TimeSeries" 1530403200 1531612800
      = .ok [tripleOf catTimeSeries] ∧
    alllonlat (fun _ => .error .retrievalError) initClient
        "TimeSeries" 1530403200 1531612800 = .error .retrievalError :=
  ⟨((C7_alllonlat_contract [catTimeSeries, catStale] initClient
      "TimeSeries" 1530403200 1531612800 .retrievalError).1).trans (by rfl),
   (C7_alllonlat_contract [catTimeSeries, catStale] initClient
      "TimeSeries" 1530403200 1531612800 .retrievalError).2.2⟩

theorem length_flatMap_pair (ids : List String) (f g : String → Request) :
    (ids.flatMap (fun i => [f i, g i])).length = 2 * ids.length := by
  induction ids with
  | nil => rfl
  | cons i rest ih =>
    simp only [List.flatMap_cons, List.length_append, List.length_cons,
      List.length_nil, ih]
    omega

/-- C8: for a finite descriptor sequence the loop terminates (it is a total
function of its inputs) having issued, strictly in input order, exactly one
metadata request and one download request per descriptor — two requests per
descriptor, one at a time, with no deduplication; since the trace is a pure
function of the arguments, re-invoking the loop re-issues the same full
request list. -/
theorem C8_loop_processes_each_once
    (getVar : String → String → List String) (fetch : ERDDAPClient → Option Series)
    (sn : String) (ooi : ERDDAPClient) (ids : List String)
    (h : ∀ i ∈ ids, getVar i sn ≠ []) :
    (fetchLoopTrace getVar fetch sn ooi ids).1
      = ids.flatMap (fun i =>
          [.infoRequest i sn, .downloadRequest (iterClient getVar sn ooi i)]) ∧
    (fetchLoopTrace getVar fetch sn ooi ids).1.length = 2 * ids.length := by
  have hs := fetchLoopTrace_spec getVar fetch sn ids ooi h
  rw [hs]
  exact ⟨rfl, length_flatMap_pair ids _ _⟩

/-- C8 witness: the A, B, C scenario issues exactly its six requests in
order, independently of B's fetch failing. -/
theorem C8_witness :
    (∀ i ∈ ["A", "B", "C"], witnessGetVar i "sea_water_practical_salinity" ≠ []) ∧
    (fetchLoopTrace witnessGetVar witnessFetch "sea_water_practical_salinity"
        initClient ["A", "B", "C"]).1
      = ["A", "B", "C"].flatMap (fun i =>
          [.infoRequest i "sea_water_practical_salinity",
           .downloadRequest (iterClient witnessGetVar
             "sea_water_practical_salinity" initClient i)]) ∧
    (fetchLoopTrace witnessGetVar witnessFetch "sea_water_practical_salinity"
        initClient ["A", "B", "C"]).1.length = 2 * (3 : Nat) :=
  ⟨by decide,
   (C8_loop_processes_each_once witnessGetVar witnessFetch
     "sea_water_practical_salinity" initClient ["A", "B", "C"] (by decide)).1,
   (C8_loop_processes_each_once witnessGetVar witnessFetch
     "sea_water_practical_salinity" initClient ["A", "B", "C"] (by decide)).2⟩

/-- C9: each loop iteration rewrites exactly the two fields `dataset_id` and
`vars` of the shared client; the configuration fields set before the loop
(`server`, `protocol`, `constraints`, `response`) survive every iteration
unchanged, and when the loop completes normally the client holds the
identifier and variable list of the last processed descriptor. -/
theorem C9_client_mutation_frame
    (getVar : String → String → List String) (fetch : ERDDAPClient → Option Series)
    (sn : String) (ooi : ERDDAPClient) (ids : List String)
    (c : ERDDAPClient) (results : List SeriesResult)
    (h : ∀ i ∈ ids, getVar i sn ≠ [])
    (hok : fetchLoop getVar fetch sn ooi ids = .ok (c, results)) :
    (∀ (cl : ERDDAPClient) (i : String),
      (iterClient getVar sn cl i).server = cl.server ∧
      (iterClient getVar sn cl i).protocol = cl.protocol ∧
      (iterClient getVar sn cl i).constraints = cl.constraints ∧
      (iterClient getVar sn cl i).response = cl.response ∧
      (iterClient getVar sn cl i).dataset_id = i ∧
      (iterClient getVar sn cl i).vars = ["time", (getVar i sn).headD ""]) ∧
    c.server = ooi.server ∧ c.protocol = ooi.protocol ∧
    c.constraints = ooi.constraints ∧ c.response = ooi.response ∧
    ∀ l, ids.getLast? = some l →
      c.dataset_id = l ∧ c.vars = ["time", (getVar l sn).headD ""] := by
  rw [fetchLoop_spec getVar fetch sn ids ooi h] at hok
  injection hok with hok
  have hc : ids.foldl (iterClient getVar sn) ooi = c := congrArg Prod.fst hok
  have hframe := foldl_iterClient_frame getVar sn ids ooi
  rw [hc] at hframe
  refine ⟨fun cl i => ⟨rfl, rfl, rfl, rfl, rfl, rfl⟩,
    hframe.1, hframe.2.1, hframe.2.2.1, hframe.2.2.2, ?_⟩
  intro l hl
  rw [← hc, foldl_iterClient_getLast getVar sn ids ooi l hl]
  exact ⟨rfl, rfl⟩

/-- The client state after the C9 witness run: the identifier and variable
list of the last descriptor, C. -/
def clientAfterC9Run : ERDDAPClient :=
  { initClient with dataset_id := "C",
                    vars := ["time", "sea_water_practical_salinity"] }

/-- C9 witness: after the A, B, C run the client keeps its configuration and
holds C's identifier and variable list. -/
theorem C9_witness :
    (∀ (cl : ERDDAPClient) (i : String),
      (iterClient witnessGetVar "sea_water_practical_salinity" cl i).server
          = cl.server ∧
      (iterClient witnessGetVar "sea_water_practical_salinity" cl i).protocol
          = cl.protocol ∧
      (iterClient witnessGetVar "sea_water_practical_salinity" cl i).constraints
          = cl.constraints ∧
      (iterClient witnessGetVar "sea_water_practical_salinity" cl i).response
          = cl.response ∧
      (iterClient witnessGetVar "sea_water_practical_salinity" cl i).dataset_id
          = i ∧
      (iterClient witnessGetVar "sea_water_practical_salinity" cl i).vars
          = ["time", (witnessGetVar i "sea_water_practical_salinity").headD ""]) ∧
    clientAfterC9Run.server = initClient.server ∧
    clientAfterC9Run.protocol = initClient.protocol ∧
    clientAfterC9Run.constraints = initClient.constraints ∧
    clientAfterC9Run.response = initClient.response ∧
    ∀ l, (["A", "B", "C"] : List String).getLast? = some l →
      clientAfterC9Run.dataset_id = l ∧
      clientAfterC9Run.vars
        = ["time", (witnessGetVar l "sea_water_practical_salinity").headD ""] :=
  C9_client_mutation_frame witnessGetVar witnessFetch
    "sea_water_practical_salinity" initClient ["A", "B", "C"]
    clientAfterC9Run [⟨"A", [(0, 35)]⟩, ⟨"C", [(0, 35)]⟩] (by decide) rfl

theorem xrWhere_topo_mem (a : List BathyCell) (p : Int → Bool) (c : BathyCell)
    (hc : c ∈ xrWhere a p) (v : Int) (hv : c.topo = some v) :
    p v = true ∧ ∃ c0 ∈ a, c0.lat = c.lat ∧ c0.lon = c.lon ∧ c0.topo = some v := by
  rcases List.mem_map.mp hc with ⟨c0, hc0, rfl⟩
  cases h0 : c0.topo with
  | none =>
    simp only [h0] at hv
    exact Option.noConfusion hv
  | some w =>
    simp only [h0] at hv
    by_cases hp : p w = true
    · rw [if_pos hp] at hv
      have hw : w = v := Option.some.injEq w v ▸ hv
      subst hw
      exact ⟨hp, c0, hc0, rfl, rfl, h0⟩
    · rw [if_neg hp] at hv
      exact Option.noConfusion hv

theorem xrWhere_coords (a : List BathyCell) (p : Int → Bool) :
    (xrWhere a p).map (fun c => (c.lat, c.lon))
      = a.map (fun c => (c.lat, c.lon)) := by
  unfold xrWhere
  rw [List.map_map]
  rfl

/-- C10: after `na.where(na<0)` and `na.where(na>-1000)`, every retained
(non-missing) value lies strictly between -1000 and 0; cells whose value is
at least 0 or equal to -1000 become missing; and the masking changes neither
the shape (cell count) nor the coordinates of the array. -/
theorem C10_bathy_masking (na : List BathyCell) :
    (∀ c ∈ maskNorthAmerica na, ∀ v, c.topo = some v → -1000 < v ∧ v < 0) ∧
    (maskNorthAmerica na).map (fun c => (c.lat, c.lon))
      = na.map (fun c => (c.lat, c.lon)) ∧
    (maskNorthAmerica na).length = na.length ∧
    (∀ i c v, na.get? i = some c → c.topo = some v → (0 ≤ v ∨ v = -1000) →
      ∃ c2, (maskNorthAmerica na).get? i = some c2 ∧ c2.lat = c.lat ∧
        c2.lon = c.lon ∧ c2.topo = none) := by
  refine ⟨?_, ?_, ?_, ?_⟩
  · intro c hc v hv
    have houter := xrWhere_topo_mem (xrWhere na (fun v => decide (v < 0)))
      (fun v => decide (-1000 < v)) c hc v hv
    rcases houter with ⟨hp2, c1, hc1, _, _, ht1⟩
    have hinner := xrWhere_topo_mem na (fun v => decide (v < 0)) c1 hc1 v ht1
    exact ⟨of_decide_eq_true hp2, of_decide_eq_true hinner.1⟩
  · unfold maskNorthAmerica
    rw [xrWhere_coords, xrWhere_coords]
  · simp [maskNorthAmerica, xrWhere]
  · intro i c v hg ht hv0
    unfold maskNorthAmerica xrWhere
    rw [List.map_map, List.get?_map, hg]
    simp only [Option.map_some', Function.comp_apply]
    refine ⟨_, rfl, rfl, rfl, ?_⟩
    simp only [ht]
    rcases hv0 with h0 | h0
    · rw [if_neg (by simp; omega)]
    · subst h0
      rfl

/-- A concrete four-cell bathymetry patch: shallow water, exactly -1000 m,
land, and an already-missing cell. -/
def wBathy : List BathyCell :=
  [{ lat := 30, lon := -80, topo := some (-500) },
   { lat := 30, lon := -79, topo := some (-1000) },
   { lat := 31, lon := -80, topo := some 5 },
   { lat := 31, lon := -79, topo := none }]

/-- C10 witness: on the concrete patch, the retained -500 value is strictly
between -1000 and 0, coordinates survive the masking, and the land cell at
index 2 becomes missing. -/
theorem C10_witness :
    ((-1000 : Int) < -500 ∧ (-500 : Int) < 0) ∧
    (maskNorthAmerica wBathy).map (fun c => (c.lat, c.lon))
      = wBathy.map (fun c => (c.lat, c.lon)) ∧
    (∃ c2, (maskNorthAmerica wBathy).get? 2 = some c2 ∧
      c2.lat = (31 : Rat) ∧ c2.lon = (-80 : Rat) ∧ c2.topo = none) :=
  ⟨(C10_bathy_masking wBathy).1 { lat := 30, lon := -80, topo := some (-500) }
     (by decide) (-500) rfl,
   (C10_bathy_masking wBathy).2.1,
   (C10_bathy_masking wBathy).2.2.2 2 { lat := 31, lon := -80, topo := some 5 }
     5 rfl rfl (Or.inl (by decide))⟩
